import Mathlib

/-!
Shallow embedding of the Salesforce MCP server repository
(`salesforce_mcp_server_azure.py`, `salesforce_mcp_server_http.py`,
`salesforce_mcp_server_fastapi.py`).

External collaborators (the HTTP token endpoint, the CRM query/create
interface) are modelled as environment records holding the outcome of each
outbound call.  Python exceptions are modelled with `Except String`; the
string is the exception message (`str(e)`).  Python numeric values
(floats) are modelled as rationals; `float(x)` applied to a numeric value
is the identity in the model.  Timestamps (`time.time()`) are rationals.
A Python value that may be absent or `None` is an `Option`; Python
truthiness of an optional string is "present and non-empty", of an
optional number "present and non-zero".
-/

/-- Python truthiness of an optional string: `None` and `""` are falsy. -/
def strTruthy : Option String → Bool
  | none => false
  | some s => if s = "" then false else true

/-- Python truthiness of an optional number: `None` and `0` are falsy. -/
def ratTruthy : Option Rat → Bool
  | none => false
  | some x => if x = 0 then false else true

/-- Python `s.startswith("006")`: the characters `006` are a prefix of
`s`.  Stated on the character list so that it is kernel-computable. -/
def startsWith006 (s : String) : Bool :=
  List.isPrefixOf "006".data s.data

/-- A Salesforce session: `simple_salesforce.Salesforce(instance_url=..., session_id=...)`. -/
structure Session where
  instance_url : String
  access_token : String
deriving DecidableEq, Repr

/-- The module-level credential cache: globals `_sf_client` and `_auth_time`. -/
structure CacheState where
  sf_client : Option Session
  auth_time : Option Rat
deriving DecidableEq, Repr

/-- The outcome of `requests.post` against the OAuth token endpoint:
either a transport failure (the `requests` call raised) or an HTTP
response with a status code, a text body, and the optional
`instance_url` / `access_token` members of its JSON body. -/
inductive AuthOutcome where
  | transportFailure (msg : String)
  | response (status : Nat) (body : String)
      (instance_url : Option String) (access_token : Option String)
deriving DecidableEq, Repr

/-- The authentication step of `get_salesforce` in
`salesforce_mcp_server_azure.py` (and `_fastapi.py`): build the JWT,
POST it, and on a non-200 response raise
`RuntimeError(f"Auth failed: {resp.status_code} - {resp.text}")`.
A missing `instance_url`/`access_token` key in a 200 body raises a
`KeyError` naming the key. -/
def authenticate : AuthOutcome → Except String Session
  | AuthOutcome.transportFailure msg => Except.error msg
  | AuthOutcome.response status body instance_url access_token =>
    if status ≠ 200 then
      Except.error ("Auth failed: " ++ toString status ++ " - " ++ body)
    else
      match instance_url with
      | none => Except.error "instance_url"
      | some url =>
        match access_token with
        | none => Except.error "access_token"
        | some tok => Except.ok { instance_url := url, access_token := tok }

/-- The authentication step of `get_salesforce` in
`salesforce_mcp_server_http.py`: identical except that the non-200
error message is `f"Auth failed: {resp.text}"` (no status code). -/
def authenticate_http : AuthOutcome → Except String Session
  | AuthOutcome.transportFailure msg => Except.error msg
  | AuthOutcome.response status body instance_url access_token =>
    if status ≠ 200 then
      Except.error ("Auth failed: " ++ body)
    else
      match instance_url with
      | none => Except.error "instance_url"
      | some url =>
        match access_token with
        | none => Except.error "access_token"
        | some tok => Except.ok { instance_url := url, access_token := tok }

/-- The shared body of `get_salesforce` (all three files), parametrised by
the variant's authentication step.  `now` is the value of `time.time()`
at entry; the later `time.time()` call recording `_auth_time` after a
successful authentication is modelled as the same instant.
Mirrors:
```
if _sf_client and _auth_time and (time.time() - _auth_time) > 3600:
    _sf_client = None
if _sf_client is None:
    ... authenticate, set _sf_client and _auth_time ...
return _sf_client
```
On an authentication failure the exception propagates and the globals
retain whatever values they had at that point. -/
def get_salesforce_core (auth : AuthOutcome → Except String Session)
    (now : Rat) (o : AuthOutcome) (st : CacheState) :
    Except String Session × CacheState :=
  let st1 :=
    if st.sf_client.isSome && ratTruthy st.auth_time &&
        decide (now - st.auth_time.getD 0 > 3600) then
      { st with sf_client := none }
    else st
  match st1.sf_client with
  | some c => (Except.ok c, st1)
  | none =>
    match auth o with
    | Except.ok s => (Except.ok s, { sf_client := some s, auth_time := some now })
    | Except.error m => (Except.error m, st1)

/-- Function `get_salesforce` of `salesforce_mcp_server_azure.py`. -/
def get_salesforce (now : Rat) (o : AuthOutcome) (st : CacheState) :
    Except String Session × CacheState :=
  get_salesforce_core authenticate now o st

/-- Function `get_salesforce` of `salesforce_mcp_server_http.py`. -/
def get_salesforce_http (now : Rat) (o : AuthOutcome) (st : CacheState) :
    Except String Session × CacheState :=
  get_salesforce_core authenticate_http now o st

/-- An `Account` record as returned by a SOQL query (embedded in an
Opportunity or fetched by the secondary lookup).  Every field is read
with `.get`, so each is optional. -/
structure AccountRec where
  Id : Option String
  Name : Option String
  Phone : Option String
  Industry : Option String
deriving DecidableEq, Repr

/-- An `Opportunity` record from the stage-2 query
`SELECT Id, Name, AccountId, Account.Name, Account.Phone,
Account.Industry, Pricebook2Id FROM Opportunity ...`.
`Id` and `Name` are read with `opp["Id"]` / `opp["Name"]` and are
treated as present; `Account = some a` models a truthy embedded dict. -/
structure Opp where
  Id : String
  Name : String
  AccountId : Option String
  Account : Option AccountRec
  Pricebook2Id : Option String
deriving DecidableEq, Repr

/-- The embedded `PricebookEntry` object of an OpportunityLineItem row. -/
structure PBE where
  UnitPrice : Option Rat
deriving DecidableEq, Repr

/-- The embedded `Product2` object of an OpportunityLineItem row. -/
structure Prod2 where
  SKU__c : Option String
deriving DecidableEq, Repr

/-- An `OpportunityLineItem` record from the stage-5 query
`SELECT Id, Quantity, UnitPrice, PricebookEntryId,
PricebookEntry.UnitPrice, Product2.SKU__c FROM OpportunityLineItem ...`.
`PricebookEntry = some p` / `Product2 = some p` model truthy embedded
dicts. -/
structure OLI where
  Id : Option String
  Quantity : Option Rat
  UnitPrice : Option Rat
  PricebookEntryId : Option String
  PricebookEntry : Option PBE
  Product2 : Option Prod2
deriving DecidableEq, Repr

/-- One entry of the `quoteLines` response list. -/
structure LineResponse where
  skuId : Option String
  listPrice : Option Rat
  salesPrice : Option Rat
  quantity : Option Rat
deriving DecidableEq, Repr

/-- The `result` dictionary returned by `create_quote_from_opportunity`
(and by `create_quote_logic`), with its initial values as defaults. -/
structure WorkflowResult where
  quoteId : Option String := none
  opportunityId : Option String := none
  opportunityName : Option String := none
  accountId : Option String := none
  accountName : Option String := none
  accountPhone : Option String := none
  accountIndustry : Option String := none
  quoteLineCount : Nat := 0
  quoteLines : List LineResponse := []
  errorMessage : Option String := none
deriving DecidableEq, Repr

/-- An outbound CRM mutation.  The CRM interface (`SFType`) supports
record deletion, but nothing in this repository ever issues one; the
constructor exists so that "no compensating deletion is performed" is a
statement about runs, not about the vocabulary. -/
inductive Effect where
  | create (objType : String)
  | delete (objType : String)
deriving DecidableEq, Repr

/-- Whether an effect is a record creation. -/
def Effect.isCreate : Effect → Bool
  | Effect.create _ => true
  | Effect.delete _ => false

/-- The environment of one `create_quote_from_opportunity` run: the
outcome of each outbound call the workflow can make.  `qliCreate n` is
the outcome of the `(n+1)`-st `QuoteLineItem` creation call. -/
structure CrmEnv where
  auth : Except String Session
  oppRecords : Except String (List Opp)
  quoteCreate : Except String String
  accountRecords : Except String (List AccountRec)
  oliRecords : Except String (List OLI)
  qliCreate : Nat → Except String String

/-- The `list_price` of one OLI:
`oli["PricebookEntry"].get("UnitPrice")` when the embedded
`PricebookEntry` dict is truthy, else `None`. -/
def oliListPrice (oli : OLI) : Option Rat :=
  match oli.PricebookEntry with
  | some p => p.UnitPrice
  | none => none

/-- Python `sales_price = oli.get("UnitPrice", 0)`. -/
def oliSalesPrice (oli : OLI) : Rat :=
  oli.UnitPrice.getD 0

/-- Python `quantity = oli.get("Quantity", 0)`. -/
def oliQuantity (oli : OLI) : Rat :=
  oli.Quantity.getD 0

/-- The `line_response` dict built for one created quote line:
each numeric field is `float(v) if v else None` (a falsy source value —
zero or absent — becomes `None`); `skuId` comes from the embedded
`Product2` dict when truthy. -/
def mkLineResponse (oli : OLI) : LineResponse :=
  { skuId :=
      match oli.Product2 with
      | some p => p.SKU__c
      | none => none
    listPrice :=
      match oliListPrice oli with
      | some x => if x = 0 then none else some x
      | none => none
    salesPrice := if oliSalesPrice oli = 0 then none else some (oliSalesPrice oli)
    quantity := if oliQuantity oli = 0 then none else some (oliQuantity oli) }

/-- Whether an OLI is eligible for quote-line creation:
`if not pricebook_entry_id: continue` skips falsy ids. -/
def oliEligible (oli : OLI) : Bool :=
  strTruthy oli.PricebookEntryId

/-- The number of eligible line items in a record list. -/
def eligCount (olis : List OLI) : Nat :=
  (olis.filter oliEligible).length

/-- The stage-5 loop of the azure/http `create_quote_from_opportunity`:
iterate over the OLI records, skip ineligible ones, create a
`QuoteLineItem` for each eligible one and accumulate the `quote_lines`
ids (modelled as the count `created`) and `line_responses`.  A creation
failure raises: the exception carries the effects performed so far (the
local accumulators are discarded — `quoteLineCount`/`quoteLines` are
only written after the loop). -/
def qliLoop (env : CrmEnv) (olis : List OLI) (created : Nat)
    (resps : List LineResponse) (effs : List Effect) :
    Except (String × List Effect) (Nat × List LineResponse × List Effect) :=
  match olis with
  | [] => Except.ok (created, resps, effs)
  | oli :: rest =>
    if oliEligible oli then
      match env.qliCreate created with
      | Except.error m => Except.error (m, effs)
      | Except.ok _qid =>
        qliLoop env rest (created + 1) (resps ++ [mkLineResponse oli])
          (effs ++ [Effect.create "QuoteLineItem"])
    else
      qliLoop env rest created resps effs

/-- Stage 4 of the azure/http `create_quote_from_opportunity`: if the
opportunity carried a truthy embedded `Account` dict, copy its fields
(`accountId` is `account.get("Id") or opp.get("AccountId")`, Python
`or` on a possibly-empty string).  Otherwise take the bare
`opp.get("AccountId")` and, when that is truthy, attempt the secondary
`SELECT Id, Name, Phone, Industry FROM Account ...` lookup inside its
own `try/except`: a failure is logged and swallowed, leaving the
name/phone/industry fields untouched. -/
def resolveAccount (env : CrmEnv) (opp : Opp) (r : WorkflowResult) : WorkflowResult :=
  match opp.Account with
  | some account =>
    { r with
      accountId :=
        match account.Id with
        | some aid => if aid = "" then opp.AccountId else some aid
        | none => opp.AccountId,
      accountName := account.Name,
      accountPhone := account.Phone,
      accountIndustry := account.Industry }
  | none =>
    let r1 := { r with accountId := opp.AccountId }
    if strTruthy r1.accountId then
      match env.accountRecords with
      | Except.error _m => r1
      | Except.ok [] => r1
      | Except.ok (acc :: _) =>
        { r1 with accountName := acc.Name,
                  accountPhone := acc.Phone,
                  accountIndustry := acc.Industry }
    else r1

/-- Stage 5 of the azure/http `create_quote_from_opportunity`: query
the opportunity line items (a query failure raises into the outer
handler), run the creation loop when the record list is truthy
(non-empty), and only after the whole loop completes assign
`quoteLineCount` and `quoteLines`. -/
def runStage5 (env : CrmEnv) (effs0 : List Effect) (r : WorkflowResult) :
    WorkflowResult × List Effect :=
  match env.oliRecords with
  | Except.error m => ({ r with errorMessage := some m }, effs0)
  | Except.ok [] => (r, effs0)
  | Except.ok (oli :: rest) =>
    match qliLoop env (oli :: rest) 0 [] effs0 with
    | Except.error (m, effs) => ({ r with errorMessage := some m }, effs)
    | Except.ok (count, lineResps, effs) =>
      ({ r with quoteLineCount := count, quoteLines := lineResps }, effs)

/-- The shared body of `create_quote_from_opportunity` in
`salesforce_mcp_server_azure.py` (`strictId = true`: the id must start
with `"006"`) and `salesforce_mcp_server_http.py` (`strictId = false`:
no format check).  The whole body runs inside
`try: ... except Exception as e: result["errorMessage"] = str(e)`, so
every raised exception is folded into the `result` dict as populated at
the moment it was raised, and the function returns that dict together
with the CRM mutations performed. -/
def create_quote_core (strictId : Bool) (env : CrmEnv) (opportunity_id : String) :
    WorkflowResult × List Effect :=
  let r : WorkflowResult := {}
  if opportunity_id = "" then
    ({ r with errorMessage := some "Opportunity Id is required" }, [])
  else if strictId && !(startsWith006 opportunity_id) then
    ({ r with errorMessage := some ("Invalid Opportunity ID format: " ++
        opportunity_id ++ ". Must start with 006") }, [])
  else
    match env.auth with
    | Except.error m => ({ r with errorMessage := some m }, [])
    | Except.ok _sf =>
      match env.oppRecords with
      | Except.error m => ({ r with errorMessage := some m }, [])
      | Except.ok records =>
        match records with
        | [] => ({ r with errorMessage := some ("Opportunity with Id " ++
            opportunity_id ++ " not found") }, [])
        | opp :: _ =>
          if !(strTruthy opp.Pricebook2Id) then
            ({ r with errorMessage := some "Opportunity must have a Pricebook assigned" }, [])
          else
            match env.quoteCreate with
            | Except.error m => ({ r with errorMessage := some m }, [])
            | Except.ok quote_id =>
              runStage5 env [Effect.create "Quote"]
                (resolveAccount env opp
                  { r with quoteId := some quote_id,
                           opportunityId := some opp.Id,
                           opportunityName := some opp.Name })

/-- Function `create_quote_from_opportunity` of `salesforce_mcp_server_azure.py`. -/
def create_quote_from_opportunity (env : CrmEnv) (opportunity_id : String) :
    WorkflowResult × List Effect :=
  create_quote_core true env opportunity_id

/-- Function `create_quote_from_opportunity` of `salesforce_mcp_server_http.py`
(identical body except that it performs no `"006"` format check). -/
def create_quote_from_opportunity_http (env : CrmEnv) (opportunity_id : String) :
    WorkflowResult × List Effect :=
  create_quote_core false env opportunity_id

/-- The stage-5 loop of `create_quote_logic` in
`salesforce_mcp_server_fastapi.py`.  Unlike the azure/http loop it
increments `result["quoteLineCount"]` inside the loop (after each
successful creation) and never builds `line_responses`; on a creation
failure the exception carries the count and effects accumulated so far. -/
def qliLoopF (env : CrmEnv) (olis : List OLI) (created : Nat)
    (effs : List Effect) :
    Except (String × Nat × List Effect) (Nat × List Effect) :=
  match olis with
  | [] => Except.ok (created, effs)
  | oli :: rest =>
    if oliEligible oli then
      match env.qliCreate created with
      | Except.error m => Except.error (m, created, effs)
      | Except.ok _qid =>
        qliLoopF env rest (created + 1) (effs ++ [Effect.create "QuoteLineItem"])
    else
      qliLoopF env rest created effs

/-- Stage 4 of `create_quote_logic` in
`salesforce_mcp_server_fastapi.py`: embedded account fields when the
dict is truthy, else only the bare `AccountId` — there is no secondary
lookup in this variant. -/
def resolveAccountF (opp : Opp) (r : WorkflowResult) : WorkflowResult :=
  match opp.Account with
  | some account =>
    { r with
      accountId :=
        match account.Id with
        | some aid => if aid = "" then opp.AccountId else some aid
        | none => opp.AccountId,
      accountName := account.Name,
      accountPhone := account.Phone,
      accountIndustry := account.Industry }
  | none => { r with accountId := opp.AccountId }

/-- Stage 5 of `create_quote_logic`: the count accumulated so far is
written through to `result["quoteLineCount"]` even when a creation in
the middle of the loop raises. -/
def runStage5F (env : CrmEnv) (effs0 : List Effect) (r : WorkflowResult) :
    WorkflowResult × List Effect :=
  match env.oliRecords with
  | Except.error m => ({ r with errorMessage := some m }, effs0)
  | Except.ok [] => (r, effs0)
  | Except.ok (oli :: rest) =>
    match qliLoopF env (oli :: rest) 0 effs0 with
    | Except.error (m, created, effs) =>
      ({ r with quoteLineCount := created, errorMessage := some m }, effs)
    | Except.ok (created, effs) =>
      ({ r with quoteLineCount := created }, effs)

/-- Function `create_quote_logic` of `salesforce_mcp_server_fastapi.py`.
Differences from the azure variant: no empty-id check inside the
function (only the `"006"` format check — an empty id fails that check
anyway), no secondary account lookup when the account is not embedded,
`quoteLineCount` incremented per created line, and `quoteLines` never
populated. -/
def create_quote_logic (env : CrmEnv) (opportunity_id : String) :
    WorkflowResult × List Effect :=
  let r : WorkflowResult := {}
  if !(startsWith006 opportunity_id) then
    ({ r with errorMessage := some ("Invalid Opportunity ID format: " ++
        opportunity_id) }, [])
  else
    match env.auth with
    | Except.error m => ({ r with errorMessage := some m }, [])
    | Except.ok _sf =>
      match env.oppRecords with
      | Except.error m => ({ r with errorMessage := some m }, [])
      | Except.ok records =>
        match records with
        | [] => ({ r with errorMessage := some ("Opportunity with Id " ++
            opportunity_id ++ " not found") }, [])
        | opp :: _ =>
          if !(strTruthy opp.Pricebook2Id) then
            ({ r with errorMessage := some "Opportunity must have a Pricebook assigned" }, [])
          else
            match env.quoteCreate with
            | Except.error m => ({ r with errorMessage := some m }, [])
            | Except.ok quote_id =>
              runStage5F env [Effect.create "Quote"]
                (resolveAccountF opp
                  { r with quoteId := some quote_id,
                           opportunityId := some opp.Id,
                           opportunityName := some opp.Name })

/-- What the fastapi `mcp_request` handler answers for one
`tools/call` of `create_quote_from_opportunity`: either a tool result
carrying the `WorkflowResult`, or a JSON-RPC error object (code
`-32603`) produced by the handler's own `except` block. -/
inductive McpOut where
  | result (r : WorkflowResult) (effs : List Effect)
  | rpcError (msg : String)

/-- The `tools/call` dispatch for `create_quote_from_opportunity` in
`salesforce_mcp_server_fastapi.py` (`mcp_request`):
`opportunity_id = arguments.get("opportunity_id")`;
`if not opportunity_id: raise ValueError("Opportunity Id is required")`
— this raise happens before `create_quote_logic` is called and is
caught by `mcp_request`'s own handler, which turns it into a JSON-RPC
error response (HTTP 200), not a `WorkflowResult`. -/
def mcp_create_quote (env : CrmEnv) (opportunity_id : Option String) : McpOut :=
  if strTruthy opportunity_id then
    match create_quote_logic env (opportunity_id.getD "") with
    | (r, effs) => McpOut.result r effs
  else
    McpOut.rpcError "Opportunity Id is required"

/-- One item of the `get_accounts` return value in the azure variant:
an account record on success, or the single folded error record
`{"error": msg}`. -/
inductive AccountsItem where
  | record (a : AccountRec)
  | failure (msg : String)
deriving DecidableEq, Repr

/-- The environment of one `get_accounts` call: the clock, the token
endpoint outcome (consumed only if `get_salesforce` authenticates), and
the outcome of the one SOQL query. -/
structure AccountsEnv where
  now : Rat
  tokenOutcome : AuthOutcome
  queryRecords : Except String (List AccountRec)

/-- The SOQL text issued by `get_accounts`:
`f"SELECT Id, Name FROM Account LIMIT {limit}"`. -/
def accounts_soql (limit : Int) : String :=
  "SELECT Id, Name FROM Account LIMIT " ++ toString limit

/-- Function `get_accounts` of `salesforce_mcp_server_azure.py`.  The whole body
is inside `try/except`: an out-of-range `limit` is silently replaced by
5, and any failure is returned as the one-element list
`[{"error": f"Error fetching accounts: {e}"}]`.  Returns the item list,
the credential cache state after the call, and the SOQL query issued
(`none` when the failure occurred before the query). -/
def get_accounts (env : AccountsEnv) (st : CacheState) (limit : Int) :
    List AccountsItem × CacheState × Option String :=
  let limit := if limit < 1 ∨ limit > 100 then 5 else limit
  match get_salesforce env.now env.tokenOutcome st with
  | (Except.error m, st1) =>
    ([AccountsItem.failure ("Error fetching accounts: " ++ m)], st1, none)
  | (Except.ok _sf, st1) =>
    match env.queryRecords with
    | Except.error m =>
      ([AccountsItem.failure ("Error fetching accounts: " ++ m)], st1,
        some (accounts_soql limit))
    | Except.ok recs =>
      (recs.map AccountsItem.record, st1, some (accounts_soql limit))

/-- Function `get_accounts` of `salesforce_mcp_server_http.py`: no limit
validation and no `try/except` — the limit is interpolated into the
query as given, and any failure propagates as an exception
(`Except.error`).  Returns the outcome, the cache state after the call,
and the SOQL query issued (`none` when authentication failed first). -/
def get_accounts_http (env : AccountsEnv) (st : CacheState) (limit : Int) :
    Except String (List AccountRec) × CacheState × Option String :=
  match get_salesforce_http env.now env.tokenOutcome st with
  | (Except.error m, st1) => (Except.error m, st1, none)
  | (Except.ok _sf, st1) =>
    match env.queryRecords with
    | Except.error m => (Except.error m, st1, some (accounts_soql limit))
    | Except.ok recs => (Except.ok recs, st1, some (accounts_soql limit))

/-- Concrete fixture: a cached session. -/
def sessA : Session :=
  { instance_url := "https://example.my.salesforce.com", access_token := "tokenA" }

/-- Concrete fixture: the session a fresh authentication would yield. -/
def sessB : Session :=
  { instance_url := "https://example.my.salesforce.com", access_token := "tokenB" }

/-- Concrete fixture: a 200 token response carrying `sessB`. -/
def tokenOk : AuthOutcome :=
  AuthOutcome.response 200 "ok"
    (some "https://example.my.salesforce.com") (some "tokenB")

/-- Concrete fixture: a 401 token response. -/
def token401 : AuthOutcome :=
  AuthOutcome.response 401 "invalid_grant" none none

/-- Concrete fixture: an opportunity with an embedded account, a
pricebook, and id prefix `006`. -/
def oppA : Opp :=
  { Id := "006000000000001", Name := "Big Deal",
    AccountId := some "001000000000001",
    Account := some { Id := some "001000000000001", Name := some "Acme",
                      Phone := some "555-1234", Industry := some "Tech" },
    Pricebook2Id := some "01s000000000001" }

/-- Concrete fixture: the same opportunity without an embedded account. -/
def oppBare : Opp :=
  { Id := "006000000000001", Name := "Big Deal",
    AccountId := some "001000000000001",
    Account := none,
    Pricebook2Id := some "01s000000000001" }

/-- Concrete fixture: a line item with a pricebook-entry reference,
quantity 3 at unit price 10 with list price 12 and an SKU. -/
def oliWith : OLI :=
  { Id := some "00k1", Quantity := some 3, UnitPrice := some 10,
    PricebookEntryId := some "01u000000000001",
    PricebookEntry := some { UnitPrice := some 12 },
    Product2 := some { SKU__c := some "SKU-1" } }

/-- Concrete fixture: a line item whose quantity is zero, whose unit
price is absent, and whose pricebook entry carries a zero list price. -/
def oliZero : OLI :=
  { Id := some "00k3", Quantity := some 0, UnitPrice := none,
    PricebookEntryId := some "01u000000000002",
    PricebookEntry := some { UnitPrice := some 0 },
    Product2 := none }

/-- Concrete fixture: a line item lacking a pricebook-entry reference. -/
def oliWithout : OLI :=
  { Id := some "00k2", Quantity := some 2, UnitPrice := some 7,
    PricebookEntryId := none,
    PricebookEntry := none,
    Product2 := none }

/-- Concrete fixture: the Acme account record. -/
def acctAcme : AccountRec :=
  { Id := some "001000000000001", Name := some "Acme",
    Phone := some "555-1234", Industry := some "Tech" }

/-- Concrete fixture: a workflow environment in which every outbound
call succeeds; two line items, one eligible. -/
def envAllOk : CrmEnv :=
  { auth := Except.ok sessB,
    oppRecords := Except.ok [oppA],
    quoteCreate := Except.ok "0Q0000000000001",
    accountRecords := Except.ok [acctAcme],
    oliRecords := Except.ok [oliWith, oliWithout],
    qliCreate := fun _ => Except.ok "0QL000000000001" }

/-- Concrete fixture: like `envAllOk` but the opportunity has no
embedded account and the secondary account lookup fails. -/
def envAcctFail : CrmEnv :=
  { envAllOk with
    oppRecords := Except.ok [oppBare],
    accountRecords := Except.error "account lookup failed" }

/-- Concrete fixture: like `envAllOk` but the opportunity has no
embedded account; the account-details query would succeed and return
the Acme record. -/
def envBareOk : CrmEnv :=
  { envAllOk with oppRecords := Except.ok [oppBare] }

/-- Concrete fixture: like `envAllOk` but with two eligible line items
of which the second creation call fails. -/
def envQliFail : CrmEnv :=
  { envAllOk with
    oliRecords := Except.ok [oliWith, oliWithout, oliWith],
    qliCreate := fun n =>
      if n = 0 then Except.ok "0QL000000000001"
      else Except.error "QuoteLineItem create failed" }

/-- Concrete fixture: accounts environment with a successful token
exchange and an empty query result. -/
def accEnvOk : AccountsEnv :=
  { now := 10, tokenOutcome := tokenOk, queryRecords := Except.ok [] }

/-- Concrete fixture: accounts environment whose token exchange is
answered with HTTP 401. -/
def accEnv401 : AccountsEnv :=
  { now := 10, tokenOutcome := token401, queryRecords := Except.ok [] }

/-- Concrete fixture: the empty credential cache. -/
def cache0 : CacheState :=
  { sf_client := none, auth_time := none }

/-- Concrete fixture: a cache holding `sessA` acquired at time 1. -/
def cacheA : CacheState :=
  { sf_client := some sessA, auth_time := some 1 }

/-- Whether an `Except` value is a success. -/
def exceptOk {ε α : Type} : Except ε α → Bool
  | Except.ok _ => true
  | Except.error _ => false

/-- The success condition of one azure/http workflow run: the input
passes the stage-1 checks and every outbound call the run makes
succeeds (the secondary account lookup is deliberately absent — its
outcome never decides success). -/
def runOkCore (strictId : Bool) (env : CrmEnv) (oid : String) : Prop :=
  ¬ oid = "" ∧
  (strictId = true → startsWith006 oid = true) ∧
  (∃ s, env.auth = Except.ok s) ∧
  (∃ opp rest, env.oppRecords = Except.ok (opp :: rest) ∧
    strTruthy opp.Pricebook2Id = true) ∧
  (∃ q, env.quoteCreate = Except.ok q) ∧
  (∃ olis, env.oliRecords = Except.ok olis ∧
    ∀ i, i < eligCount olis → ∃ v, env.qliCreate i = Except.ok v)

/-- The effects carried by a stage-5 loop outcome, whichever branch. -/
def loopEffects :
    Except (String × List Effect) (Nat × List LineResponse × List Effect) →
    List Effect
  | Except.error (_, effs) => effs
  | Except.ok (_, _, effs) => effs

theorem qliLoop_effects_create (env : CrmEnv) (olis : List OLI) :
    ∀ c resps effs, (∀ e ∈ effs, Effect.isCreate e = true) →
    ∀ e ∈ loopEffects (qliLoop env olis c resps effs), Effect.isCreate e = true := by
  induction olis with
  | nil =>
    intro c resps effs h e he
    simp only [qliLoop, loopEffects] at he
    exact h e he
  | cons oli rest ih =>
    intro c resps effs h e he
    rw [qliLoop] at he
    cases helig : oliEligible oli
    · rw [helig] at he
      simp only [Bool.false_eq_true, if_false] at he
      exact ih c resps effs h e he
    · rw [helig] at he
      simp only [if_true] at he
      cases hcr : env.qliCreate c with
      | error m =>
        rw [hcr] at he
        simp only [loopEffects] at he
        exact h e he
      | ok v =>
        rw [hcr] at he
        refine ih (c + 1) _ _ ?_ e he
        intro e' he'
        rcases List.mem_append.mp he' with h1 | h1
        · exact h e' h1
        · simp only [List.mem_singleton] at h1
          subst h1
          rfl

theorem qliLoop_all_ok (env : CrmEnv) (olis : List OLI) :
    ∀ c resps effs,
    (∀ i, i < eligCount olis → ∃ v, env.qliCreate (c + i) = Except.ok v) →
    qliLoop env olis c resps effs =
      Except.ok (c + eligCount olis,
        resps ++ (olis.filter oliEligible).map mkLineResponse,
        effs ++ List.replicate (eligCount olis) (Effect.create "QuoteLineItem")) := by
  induction olis with
  | nil =>
    intro c resps effs _
    simp [qliLoop, eligCount]
  | cons oli rest ih =>
    intro c resps effs h
    cases helig : oliEligible oli
    · have hcnt : eligCount (oli :: rest) = eligCount rest := by
        simp [eligCount, List.filter_cons, helig]
      rw [qliLoop]
      rw [helig]
      simp only [Bool.false_eq_true, if_false]
      rw [ih c resps effs (by rw [hcnt] at h; exact h)]
      simp [hcnt, List.filter_cons, helig]
    · have hcnt : eligCount (oli :: rest) = eligCount rest + 1 := by
        simp [eligCount, List.filter_cons, helig]
      obtain ⟨v, hv⟩ := h 0 (by omega)
      rw [Nat.add_zero] at hv
      rw [qliLoop]
      rw [helig]
      simp only [if_true]
      rw [hv]
      rw [ih (c + 1) (resps ++ [mkLineResponse oli])
        (effs ++ [Effect.create "QuoteLineItem"]) ?hok]
      case hok =>
        intro i hi
        have := h (i + 1) (by omega)
        rw [show c + (i + 1) = c + 1 + i by omega] at this
        exact this
      have harith : c + 1 + eligCount rest = c + eligCount (oli :: rest) := by omega
      rw [harith]
      simp [hcnt, List.filter_cons, helig, List.replicate_succ, List.append_assoc]

theorem qliLoop_fails_at (env : CrmEnv) (olis : List OLI) :
    ∀ c effs j m resps,
    (∀ i, i < j → ∃ v, env.qliCreate (c + i) = Except.ok v) →
    env.qliCreate (c + j) = Except.error m →
    j < eligCount olis →
    qliLoop env olis c resps effs =
      Except.error (m, effs ++ List.replicate j (Effect.create "QuoteLineItem")) := by
  induction olis with
  | nil =>
    intro c effs j m resps _ _ hj
    simp [eligCount] at hj
  | cons oli rest ih =>
    intro c effs j m resps hok herr hj
    cases helig : oliEligible oli
    · have hcnt : eligCount (oli :: rest) = eligCount rest := by
        simp [eligCount, List.filter_cons, helig]
      rw [qliLoop]
      rw [helig]
      simp only [Bool.false_eq_true, if_false]
      exact ih c effs j m resps hok herr (by omega)
    · have hcnt : eligCount (oli :: rest) = eligCount rest + 1 := by
        simp [eligCount, List.filter_cons, helig]
      rw [qliLoop]
      rw [helig]
      simp only [if_true]
      cases j with
      | zero =>
        rw [Nat.add_zero] at herr
        rw [herr]
        simp
      | succ j' =>
        obtain ⟨v, hv⟩ := hok 0 (by omega)
        rw [Nat.add_zero] at hv
        rw [hv]
        rw [ih (c + 1) (effs ++ [Effect.create "QuoteLineItem"]) j' m
          (resps ++ [mkLineResponse oli]) ?hok2 ?herr2 (by omega)]
        case hok2 =>
          intro i hi
          have := hok (i + 1) (by omega)
          rw [show c + (i + 1) = c + 1 + i by omega] at this
          exact this
        case herr2 =>
          rw [show c + 1 + j' = c + (j' + 1) by omega]
          exact herr
        simp [List.replicate_succ, List.append_assoc]

theorem resolveAccount_preserves (env : CrmEnv) (opp : Opp) (r : WorkflowResult) :
    (resolveAccount env opp r).quoteId = r.quoteId ∧
    (resolveAccount env opp r).opportunityId = r.opportunityId ∧
    (resolveAccount env opp r).opportunityName = r.opportunityName ∧
    (resolveAccount env opp r).quoteLineCount = r.quoteLineCount ∧
    (resolveAccount env opp r).quoteLines = r.quoteLines ∧
    (resolveAccount env opp r).errorMessage = r.errorMessage := by
  unfold resolveAccount
  split
  · simp
  · dsimp only
    split
    · split <;> simp
    · simp

theorem resolveAccountF_preserves (opp : Opp) (r : WorkflowResult) :
    (resolveAccountF opp r).quoteId = r.quoteId ∧
    (resolveAccountF opp r).opportunityId = r.opportunityId ∧
    (resolveAccountF opp r).opportunityName = r.opportunityName ∧
    (resolveAccountF opp r).quoteLineCount = r.quoteLineCount ∧
    (resolveAccountF opp r).quoteLines = r.quoteLines ∧
    (resolveAccountF opp r).errorMessage = r.errorMessage := by
  unfold resolveAccountF
  split <;> simp

theorem resolveAccount_lookup_error (env : CrmEnv) (opp : Opp) (r : WorkflowResult)
    (m : String) (hacc : opp.Account = none)
    (haid : strTruthy opp.AccountId = true)
    (herr : env.accountRecords = Except.error m) :
    resolveAccount env opp r = { r with accountId := opp.AccountId } := by
  unfold resolveAccount
  rw [hacc]
  dsimp only
  rw [if_pos haid, herr]

theorem resolveAccount_embedded (env : CrmEnv) (opp : Opp) (r : WorkflowResult)
    (acc : AccountRec) (hacc : opp.Account = some acc) :
    resolveAccount env opp r =
      { r with
        accountId :=
          match acc.Id with
          | some aid => if aid = "" then opp.AccountId else some aid
          | none => opp.AccountId,
        accountName := acc.Name,
        accountPhone := acc.Phone,
        accountIndustry := acc.Industry } := by
  unfold resolveAccount
  rw [hacc]

theorem runStage5_preserves (env : CrmEnv) (effs0 : List Effect) (r : WorkflowResult) :
    ((runStage5 env effs0 r).1).quoteId = r.quoteId ∧
    ((runStage5 env effs0 r).1).opportunityId = r.opportunityId ∧
    ((runStage5 env effs0 r).1).opportunityName = r.opportunityName ∧
    ((runStage5 env effs0 r).1).accountId = r.accountId ∧
    ((runStage5 env effs0 r).1).accountName = r.accountName ∧
    ((runStage5 env effs0 r).1).accountPhone = r.accountPhone ∧
    ((runStage5 env effs0 r).1).accountIndustry = r.accountIndustry := by
  unfold runStage5
  split
  · simp
  · simp
  · split <;> simp

theorem runStage5_oli_error (env : CrmEnv) (effs0 : List Effect) (r : WorkflowResult)
    (m : String) (h : env.oliRecords = Except.error m) :
    runStage5 env effs0 r = ({ r with errorMessage := some m }, effs0) := by
  unfold runStage5
  rw [h]

theorem runStage5_all_ok (env : CrmEnv) (effs0 : List Effect) (r : WorkflowResult)
    (olis : List OLI)
    (holis : env.oliRecords = Except.ok olis)
    (hok : ∀ i, i < eligCount olis → ∃ v, env.qliCreate i = Except.ok v)
    (hc : r.quoteLineCount = 0) (hl : r.quoteLines = []) :
    runStage5 env effs0 r =
      ({ r with quoteLineCount := eligCount olis,
                quoteLines := (olis.filter oliEligible).map mkLineResponse },
       effs0 ++ List.replicate (eligCount olis) (Effect.create "QuoteLineItem")) := by
  unfold runStage5
  rw [holis]
  cases olis with
  | nil =>
    dsimp only
    simp only [eligCount, List.filter_nil, List.length_nil, List.map_nil,
      List.replicate_zero, List.append_nil]
    rw [← hc, ← hl]
  | cons o rest =>
    dsimp only
    rw [qliLoop_all_ok env (o :: rest) 0 [] effs0 (by simpa using hok)]
    simp

theorem runStage5_fails_at (env : CrmEnv) (effs0 : List Effect) (r : WorkflowResult)
    (olis : List OLI) (j : Nat) (m : String)
    (holis : env.oliRecords = Except.ok olis)
    (hok : ∀ i, i < j → ∃ v, env.qliCreate i = Except.ok v)
    (herr : env.qliCreate j = Except.error m)
    (hj : j < eligCount olis) :
    runStage5 env effs0 r =
      ({ r with errorMessage := some m },
       effs0 ++ List.replicate j (Effect.create "QuoteLineItem")) := by
  unfold runStage5
  rw [holis]
  cases olis with
  | nil => simp [eligCount] at hj
  | cons o rest =>
    dsimp only
    rw [qliLoop_fails_at env (o :: rest) 0 effs0 j m [] (by simpa using hok)
      (by simpa using herr) hj]

theorem runStage5_effects_create (env : CrmEnv) (effs0 : List Effect) (r : WorkflowResult)
    (h : ∀ e ∈ effs0, Effect.isCreate e = true) :
    ∀ e ∈ (runStage5 env effs0 r).2, Effect.isCreate e = true := by
  intro e he
  unfold runStage5 at he
  split at he
  · exact h e he
  · exact h e he
  · rename_i oli rest _
    split at he
    · rename_i m effs heq
      have : effs = loopEffects (qliLoop env (oli :: rest) 0 [] effs0) := by
        rw [heq]
        rfl
      rw [this] at he
      exact qliLoop_effects_create env (oli :: rest) 0 [] effs0 h e he
    · rename_i count lineResps effs heq
      have : effs = loopEffects (qliLoop env (oli :: rest) 0 [] effs0) := by
        rw [heq]
        rfl
      rw [this] at he
      exact qliLoop_effects_create env (oli :: rest) 0 [] effs0 h e he

theorem qliLoopF_all_ok (env : CrmEnv) (olis : List OLI) :
    ∀ c effs,
    (∀ i, i < eligCount olis → ∃ v, env.qliCreate (c + i) = Except.ok v) →
    qliLoopF env olis c effs =
      Except.ok (c + eligCount olis,
        effs ++ List.replicate (eligCount olis) (Effect.create "QuoteLineItem")) := by
  induction olis with
  | nil =>
    intro c effs _
    simp [qliLoopF, eligCount]
  | cons oli rest ih =>
    intro c effs h
    cases helig : oliEligible oli
    · have hcnt : eligCount (oli :: rest) = eligCount rest := by
        simp [eligCount, List.filter_cons, helig]
      rw [qliLoopF]
      rw [helig]
      simp only [Bool.false_eq_true, if_false]
      rw [ih c effs (by rw [hcnt] at h; exact h)]
      simp [hcnt]
    · have hcnt : eligCount (oli :: rest) = eligCount rest + 1 := by
        simp [eligCount, List.filter_cons, helig]
      obtain ⟨v, hv⟩ := h 0 (by omega)
      rw [Nat.add_zero] at hv
      rw [qliLoopF]
      rw [helig]
      simp only [if_true]
      rw [hv]
      rw [ih (c + 1) (effs ++ [Effect.create "QuoteLineItem"]) ?hok]
      case hok =>
        intro i hi
        have := h (i + 1) (by omega)
        rw [show c + (i + 1) = c + 1 + i by omega] at this
        exact this
      have harith : c + 1 + eligCount rest = c + eligCount (oli :: rest) := by omega
      rw [harith]
      simp [hcnt, List.replicate_succ, List.append_assoc]

theorem runStage5F_all_ok (env : CrmEnv) (effs0 : List Effect) (r : WorkflowResult)
    (olis : List OLI)
    (holis : env.oliRecords = Except.ok olis)
    (hok : ∀ i, i < eligCount olis → ∃ v, env.qliCreate i = Except.ok v)
    (hc : r.quoteLineCount = 0) :
    runStage5F env effs0 r =
      ({ r with quoteLineCount := eligCount olis },
       effs0 ++ List.replicate (eligCount olis) (Effect.create "QuoteLineItem")) := by
  unfold runStage5F
  rw [holis]
  cases olis with
  | nil =>
    dsimp only
    simp only [eligCount, List.filter_nil, List.length_nil,
      List.replicate_zero, List.append_nil]
    rw [← hc]
  | cons o rest =>
    dsimp only
    rw [qliLoopF_all_ok env (o :: rest) 0 effs0 (by simpa using hok)]
    simp

theorem core_empty_id (b : Bool) (env : CrmEnv) :
    create_quote_core b env "" =
      ({ errorMessage := some "Opportunity Id is required" }, []) := by
  unfold create_quote_core
  rw [if_pos rfl]

theorem core_bad_format (b : Bool) (env : CrmEnv) (oid : String)
    (h1 : ¬ oid = "") (h2 : (b && !(startsWith006 oid)) = true) :
    create_quote_core b env oid =
      ({ errorMessage := some ("Invalid Opportunity ID format: " ++ oid ++
          ". Must start with 006") }, []) := by
  unfold create_quote_core
  rw [if_neg h1, if_pos h2]

theorem core_auth_error (b : Bool) (env : CrmEnv) (oid : String) (m : String)
    (h1 : ¬ oid = "") (h2 : (b && !(startsWith006 oid)) = false)
    (h : env.auth = Except.error m) :
    create_quote_core b env oid = ({ errorMessage := some m }, []) := by
  unfold create_quote_core
  rw [if_neg h1, if_neg (by simp [h2]), h]

theorem core_opp_query_error (b : Bool) (env : CrmEnv) (oid : String)
    (s : Session) (m : String)
    (h1 : ¬ oid = "") (h2 : (b && !(startsWith006 oid)) = false)
    (hs : env.auth = Except.ok s)
    (h : env.oppRecords = Except.error m) :
    create_quote_core b env oid = ({ errorMessage := some m }, []) := by
  unfold create_quote_core
  rw [if_neg h1, if_neg (by simp [h2]), hs, h]

theorem core_not_found (b : Bool) (env : CrmEnv) (oid : String) (s : Session)
    (h1 : ¬ oid = "") (h2 : (b && !(startsWith006 oid)) = false)
    (hs : env.auth = Except.ok s)
    (h : env.oppRecords = Except.ok []) :
    create_quote_core b env oid =
      ({ errorMessage := some ("Opportunity with Id " ++ oid ++ " not found") }, []) := by
  unfold create_quote_core
  rw [if_neg h1, if_neg (by simp [h2]), hs, h]

theorem core_no_pricebook (b : Bool) (env : CrmEnv) (oid : String) (s : Session)
    (opp : Opp) (rest : List Opp)
    (h1 : ¬ oid = "") (h2 : (b && !(startsWith006 oid)) = false)
    (hs : env.auth = Except.ok s)
    (h : env.oppRecords = Except.ok (opp :: rest))
    (hp : strTruthy opp.Pricebook2Id = false) :
    create_quote_core b env oid =
      ({ errorMessage := some "Opportunity must have a Pricebook assigned" }, []) := by
  unfold create_quote_core
  rw [if_neg h1, if_neg (by simp [h2]), hs, h]
  dsimp only
  rw [hp]
  rfl

theorem core_quote_error (b : Bool) (env : CrmEnv) (oid : String) (s : Session)
    (opp : Opp) (rest : List Opp) (m : String)
    (h1 : ¬ oid = "") (h2 : (b && !(startsWith006 oid)) = false)
    (hs : env.auth = Except.ok s)
    (h : env.oppRecords = Except.ok (opp :: rest))
    (hp : strTruthy opp.Pricebook2Id = true)
    (hq : env.quoteCreate = Except.error m) :
    create_quote_core b env oid = ({ errorMessage := some m }, []) := by
  unfold create_quote_core
  rw [if_neg h1, if_neg (by simp [h2]), hs, h]
  dsimp only
  rw [hp, hq]
  rfl

theorem core_success_head (b : Bool) (env : CrmEnv) (oid : String) (s : Session)
    (opp : Opp) (rest : List Opp) (q : String)
    (h1 : ¬ oid = "") (h2 : (b && !(startsWith006 oid)) = false)
    (hs : env.auth = Except.ok s)
    (h : env.oppRecords = Except.ok (opp :: rest))
    (hp : strTruthy opp.Pricebook2Id = true)
    (hq : env.quoteCreate = Except.ok q) :
    create_quote_core b env oid =
      runStage5 env [Effect.create "Quote"]
        (resolveAccount env opp
          { quoteId := some q, opportunityId := some opp.Id,
            opportunityName := some opp.Name }) := by
  unfold create_quote_core
  rw [if_neg h1, if_neg (by simp [h2]), hs, h]
  dsimp only
  rw [hp, hq]
  rfl

theorem logic_success_head (env : CrmEnv) (oid : String) (s : Session)
    (opp : Opp) (rest : List Opp) (q : String)
    (h2 : startsWith006 oid = true)
    (hs : env.auth = Except.ok s)
    (h : env.oppRecords = Except.ok (opp :: rest))
    (hp : strTruthy opp.Pricebook2Id = true)
    (hq : env.quoteCreate = Except.ok q) :
    create_quote_logic env oid =
      runStage5F env [Effect.create "Quote"]
        (resolveAccountF opp
          { quoteId := some q, opportunityId := some opp.Id,
            opportunityName := some opp.Name }) := by
  unfold create_quote_logic
  rw [if_neg (by simp [h2]), hs, h]
  dsimp only
  rw [hp, hq]
  rfl

theorem create_quote_core_effects (b : Bool) (env : CrmEnv) (oid : String) :
    ∀ e ∈ (create_quote_core b env oid).2, Effect.isCreate e = true := by
  intro e he
  unfold create_quote_core at he
  split at he
  · simp at he
  · split at he
    · simp at he
    · split at he
      · simp at he
      · split at he
        · simp at he
        · split at he
          · simp at he
          · split at he
            · simp at he
            · split at he
              · simp at he
              · refine runStage5_effects_create env _ _ ?_ e he
                intro e' he'
                simp only [List.mem_singleton] at he'
                subst he'
                rfl

theorem core_errorMessage_none_iff (b : Bool) (env : CrmEnv) (oid : String) :
    (create_quote_core b env oid).1.errorMessage = none ↔ runOkCore b env oid := by
  constructor
  · intro hnone
    have h1 : ¬ oid = "" := by
      intro h
      subst h
      rw [core_empty_id] at hnone
      simp at hnone
    have h2 : b = true → startsWith006 oid = true := by
      intro hb
      by_contra hpre
      have hpre2 : startsWith006 oid = false := by
        cases hx : startsWith006 oid
        · rfl
        · exact absurd hx hpre
      have hcond : (b && !(startsWith006 oid)) = true := by
        rw [hb, hpre2]
        rfl
      rw [core_bad_format b env oid h1 hcond] at hnone
      simp at hnone
    have hb2 : (b && !(startsWith006 oid)) = false := by
      cases b with
      | false => rfl
      | true => rw [h2 rfl]; rfl
    obtain ⟨s, hs⟩ : ∃ s, env.auth = Except.ok s := by
      cases hA : env.auth with
      | error m =>
        rw [core_auth_error b env oid m h1 hb2 hA] at hnone
        simp at hnone
      | ok s => exact ⟨s, rfl⟩
    obtain ⟨opp, rest, hO, hP⟩ : ∃ opp rest,
        env.oppRecords = Except.ok (opp :: rest) ∧
        strTruthy opp.Pricebook2Id = true := by
      cases hOr : env.oppRecords with
      | error m =>
        rw [core_opp_query_error b env oid s m h1 hb2 hs hOr] at hnone
        simp at hnone
      | ok records =>
        cases records with
        | nil =>
          rw [core_not_found b env oid s h1 hb2 hs hOr] at hnone
          simp at hnone
        | cons opp rest =>
          cases hP : strTruthy opp.Pricebook2Id with
          | false =>
            rw [core_no_pricebook b env oid s opp rest h1 hb2 hs hOr hP] at hnone
            simp at hnone
          | true => exact ⟨opp, rest, rfl, hP⟩
    obtain ⟨q, hq⟩ : ∃ q, env.quoteCreate = Except.ok q := by
      cases hQ : env.quoteCreate with
      | error m =>
        rw [core_quote_error b env oid s opp rest m h1 hb2 hs hO hP hQ] at hnone
        simp at hnone
      | ok q => exact ⟨q, rfl⟩
    refine ⟨h1, h2, ⟨s, hs⟩, ⟨opp, rest, hO, hP⟩, ⟨q, hq⟩, ?_⟩
    rw [core_success_head b env oid s opp rest q h1 hb2 hs hO hP hq] at hnone
    cases hOli : env.oliRecords with
    | error m =>
      rw [runStage5_oli_error env _ _ m hOli] at hnone
      simp at hnone
    | ok olis =>
      refine ⟨olis, rfl, ?_⟩
      intro i hi
      by_contra hno
      have hPi : exceptOk (env.qliCreate i) = false := by
        cases hx : env.qliCreate i with
        | ok v => exact absurd ⟨v, hx⟩ hno
        | error m => rfl
      have hex : ∃ n, exceptOk (env.qliCreate n) = false := ⟨i, hPi⟩
      have hjs : exceptOk (env.qliCreate (Nat.find hex)) = false := Nat.find_spec hex
      have hjle : Nat.find hex ≤ i := Nat.find_min' hex hPi
      obtain ⟨m, hm⟩ : ∃ m, env.qliCreate (Nat.find hex) = Except.error m := by
        cases hx : env.qliCreate (Nat.find hex) with
        | ok v =>
          rw [hx] at hjs
          simp [exceptOk] at hjs
        | error m => exact ⟨m, rfl⟩
      have hokj : ∀ k, k < Nat.find hex → ∃ v, env.qliCreate k = Except.ok v := by
        intro k hk
        have hmin := Nat.find_min hex hk
        cases hx : env.qliCreate k with
        | ok v => exact ⟨v, rfl⟩
        | error m2 =>
          rw [hx] at hmin
          exact absurd rfl hmin
      rw [runStage5_fails_at env _ _ olis (Nat.find hex) m hOli hokj hm (by omega)] at hnone
      simp at hnone
  · rintro ⟨h1, h2, ⟨s, hs⟩, ⟨opp, rest, hO, hP⟩, ⟨q, hq⟩, ⟨olis, hOli, hok⟩⟩
    have hb2 : (b && !(startsWith006 oid)) = false := by
      cases b with
      | false => rfl
      | true => rw [h2 rfl]; rfl
    rw [core_success_head b env oid s opp rest q h1 hb2 hs hO hP hq]
    rw [runStage5_all_ok env _ _ olis hOli hok
      ((resolveAccount_preserves env opp _).2.2.2.1.trans rfl)
      ((resolveAccount_preserves env opp _).2.2.2.2.1.trans rfl)]
    exact (resolveAccount_preserves env opp _).2.2.2.2.2.trans rfl

/-- C1 (amended): in the azure and http variants,
`create_quote_from_opportunity` always returns a `WorkflowResult`
(the embedding is a total function) and a failure anywhere — stage-1
validation, authentication, the opportunity query, the not-found and
missing-pricebook checks, quote creation, the line-item query or any
quote-line creation — leaves `errorMessage` populated, while
`errorMessage` is absent exactly when no such failure occurred.  The
fastapi variant's dispatcher is excluded: for an empty/missing
`opportunity_id` it answers with a JSON-RPC error instead (see the
counterexample). -/
theorem create_quote_never_raises (env : CrmEnv) (oid : String) :
    ((create_quote_from_opportunity env oid).1.errorMessage = none ↔
      runOkCore true env oid) ∧
    ((create_quote_from_opportunity_http env oid).1.errorMessage = none ↔
      runOkCore false env oid) :=
  ⟨core_errorMessage_none_iff true env oid, core_errorMessage_none_iff false env oid⟩

/-- C1 counterexample: in the fastapi variant, calling the
`create_quote_from_opportunity` tool with the empty `opportunity_id`
yields a JSON-RPC error response, not a `WorkflowResult` with
`errorMessage` populated — the claim fails for this variant. -/
theorem mcp_empty_id_not_workflow_result :
    mcp_create_quote envAllOk (some "") =
      McpOut.rpcError "Opportunity Id is required" := by
  rfl

/-- C2: once stage 3 has created the Quote, `quoteId`,
`opportunityId` and `opportunityName` are populated in the result no
matter what stages 4–5 do (any later failure preserves them), the
embedded account fields populated in stage 4 are likewise retained,
and every CRM mutation of any run is a record creation — no
compensating deletion is ever issued. -/
theorem stage_fields_retained_no_rollback (b : Bool) (env : CrmEnv) (oid : String)
    (s : Session) (opp : Opp) (rest : List Opp) (q : String)
    (h1 : ¬ oid = "") (h2 : b = true → startsWith006 oid = true)
    (hs : env.auth = Except.ok s)
    (h4 : env.oppRecords = Except.ok (opp :: rest))
    (h5 : strTruthy opp.Pricebook2Id = true)
    (h6 : env.quoteCreate = Except.ok q) :
    (create_quote_core b env oid).1.quoteId = some q ∧
    (create_quote_core b env oid).1.opportunityId = some opp.Id ∧
    (create_quote_core b env oid).1.opportunityName = some opp.Name ∧
    (∀ acc, opp.Account = some acc →
      (create_quote_core b env oid).1.accountName = acc.Name ∧
      (create_quote_core b env oid).1.accountPhone = acc.Phone ∧
      (create_quote_core b env oid).1.accountIndustry = acc.Industry) ∧
    (∀ e ∈ (create_quote_core b env oid).2, Effect.isCreate e = true) := by
  have hb2 : (b && !(startsWith006 oid)) = false := by
    cases b with
    | false => rfl
    | true => rw [h2 rfl]; rfl
  have hhead := core_success_head b env oid s opp rest q h1 hb2 hs h4 h5 h6
  refine ⟨?_, ?_, ?_, ?_, create_quote_core_effects b env oid⟩
  · rw [hhead, (runStage5_preserves _ _ _).1, (resolveAccount_preserves _ _ _).1]
  · rw [hhead, (runStage5_preserves _ _ _).2.1, (resolveAccount_preserves _ _ _).2.1]
  · rw [hhead, (runStage5_preserves _ _ _).2.2.1, (resolveAccount_preserves _ _ _).2.2.1]
  · intro acc hacc
    refine ⟨?_, ?_, ?_⟩
    · rw [hhead, (runStage5_preserves _ _ _).2.2.2.2.1,
        resolveAccount_embedded env opp _ acc hacc]
    · rw [hhead, (runStage5_preserves _ _ _).2.2.2.2.2.1,
        resolveAccount_embedded env opp _ acc hacc]
    · rw [hhead, (runStage5_preserves _ _ _).2.2.2.2.2.2,
        resolveAccount_embedded env opp _ acc hacc]

/-- C2 witness: in a run whose second quote-line creation fails,
the Quote created in stage 3 is still reported. -/
theorem stage_fields_retained_no_rollback_witness :
    (create_quote_core true envQliFail "006000000000001").1.quoteId =
      some "0Q0000000000001" :=
  (stage_fields_retained_no_rollback true envQliFail "006000000000001"
    sessB oppA [] "0Q0000000000001" (by decide) (fun _ => by decide)
    rfl rfl (by decide) rfl).1

/-- C3 counterexample: a successful fastapi run with one eligible
line item reports `quoteLineCount = 1` but returns `quoteLines = []`
(length 0, not K = 1): `create_quote_logic` never populates
`quoteLines`, so the claim fails for the fastapi variant. -/
theorem fastapi_quote_lines_left_empty :
    (create_quote_logic envAllOk "006000000000001").1.quoteLineCount = 1 ∧
    (create_quote_logic envAllOk "006000000000001").1.quoteLines = [] ∧
    (create_quote_logic envAllOk "006000000000001").1.errorMessage = none :=
  ⟨rfl, rfl, rfl⟩

/-- C3 (amended): for a successful run on line items of which K
carry a truthy pricebook-entry reference, exactly K `QuoteLineItem`
records are created (the mutation trace is the Quote creation followed
by exactly K quote-line creations) and `quoteLineCount = K` in every
variant; the returned `quoteLines` list has length K in the azure and
http variants, while the fastapi variant's `create_quote_logic` always
returns `quoteLines = []`. -/
theorem quote_line_count_eq_eligible (b : Bool) (env : CrmEnv) (oid : String)
    (s : Session) (opp : Opp) (rest : List Opp) (q : String) (olis : List OLI)
    (h1 : ¬ oid = "") (h2 : startsWith006 oid = true)
    (hs : env.auth = Except.ok s)
    (h4 : env.oppRecords = Except.ok (opp :: rest))
    (h5 : strTruthy opp.Pricebook2Id = true)
    (h6 : env.quoteCreate = Except.ok q)
    (holis : env.oliRecords = Except.ok olis)
    (hok : ∀ i, i < eligCount olis → ∃ v, env.qliCreate i = Except.ok v) :
    ((create_quote_core b env oid).1.quoteLineCount = eligCount olis ∧
     (create_quote_core b env oid).1.quoteLines.length = eligCount olis ∧
     (create_quote_core b env oid).1.errorMessage = none ∧
     (create_quote_core b env oid).2 =
       Effect.create "Quote" ::
         List.replicate (eligCount olis) (Effect.create "QuoteLineItem")) ∧
    ((create_quote_logic env oid).1.quoteLineCount = eligCount olis ∧
     (create_quote_logic env oid).1.quoteLines = [] ∧
     (create_quote_logic env oid).2 =
       Effect.create "Quote" ::
         List.replicate (eligCount olis) (Effect.create "QuoteLineItem")) := by
  have hb2 : (b && !(startsWith006 oid)) = false := by
    rw [h2]
    simp
  constructor
  · rw [core_success_head b env oid s opp rest q h1 hb2 hs h4 h5 h6]
    rw [runStage5_all_ok env _ _ olis holis hok
      ((resolveAccount_preserves env opp _).2.2.2.1.trans rfl)
      ((resolveAccount_preserves env opp _).2.2.2.2.1.trans rfl)]
    refine ⟨rfl, ?_, ?_, rfl⟩
    · simp [eligCount]
    · exact (resolveAccount_preserves env opp _).2.2.2.2.2.trans rfl
  · rw [logic_success_head env oid s opp rest q h2 hs h4 h5 h6]
    rw [runStage5F_all_ok env _ _ olis holis hok
      ((resolveAccountF_preserves opp _).2.2.2.1.trans rfl)]
    refine ⟨rfl, ?_, rfl⟩
    exact (resolveAccountF_preserves opp _).2.2.2.2.1.trans rfl

/-- C3 witness: the all-success fixture has two line items of which
one is eligible, and the azure variant reports `quoteLineCount = 1`. -/
theorem quote_line_count_eq_eligible_witness :
    (create_quote_core true envAllOk "006000000000001").1.quoteLineCount = 1 :=
  ((quote_line_count_eq_eligible true envAllOk "006000000000001" sessB oppA []
      "0Q0000000000001" [oliWith, oliWithout] (by decide) (by decide) rfl rfl
      (by decide) rfl rfl (fun _ _ => ⟨"0QL000000000001", rfl⟩)).1).1

/-- C4 counterexample: at exactly `T + 3600` (here `T = 1`,
`t = 3601`) the cached session is returned unchanged and no fresh
authentication happens — even though a fresh authentication would have
produced a different session — because the code re-authenticates only
when the age is strictly greater than 3600.  The claim's "fresh
authentication at or after T+3600" is false at the boundary. -/
theorem cache_boundary_reuse :
    get_salesforce 3601 tokenOk cacheA = (Except.ok sessA, cacheA) ∧
    authenticate tokenOk = Except.ok sessB ∧
    ¬ sessB = sessA := by
  refine ⟨?_, rfl, by decide⟩
  have hd : decide ((3601 : Rat) - 1 > 3600) = false := by norm_num
  simp [get_salesforce, get_salesforce_core, cacheA, hd]

/-- C4 (amended): a cached session acquired at a (positive) time T
is reused verbatim — returned unchanged, cache untouched,
authentication not consulted — for every call with age `t - T ≤ 3600`
(in particular everywhere strictly inside `(T, T+3600)` and at the
boundary itself), and a fresh authentication replaces the cache, with
the new acquisition time recorded, on the first call with age strictly
greater than 3600. -/
theorem credential_cache_lifecycle (s : Session) (T t : Rat) (o : AuthOutcome)
    (hT : 0 < T) (hlt : T < t) :
    (t - T ≤ 3600 →
      get_salesforce t o { sf_client := some s, auth_time := some T } =
        (Except.ok s, { sf_client := some s, auth_time := some T })) ∧
    (3600 < t - T → ∀ s2, authenticate o = Except.ok s2 →
      get_salesforce t o { sf_client := some s, auth_time := some T } =
        (Except.ok s2, { sf_client := some s2, auth_time := some t })) := by
  constructor
  · intro hle
    have hd : decide (t - T > 3600) = false := by
      simp only [decide_eq_false_iff_not]
      exact not_lt.mpr hle
    simp [get_salesforce, get_salesforce_core, hd]
  · intro hgt s2 hs2
    have hd : decide (t - T > 3600) = true := decide_eq_true hgt
    have hT0 : ¬ T = 0 := ne_of_gt hT
    simp [get_salesforce, get_salesforce_core, ratTruthy, hd, hT0, hs2]

/-- C4 witness: a session acquired at time 1 is reused at time 3601
(age exactly 3600). -/
theorem credential_cache_lifecycle_witness :
    (0 : Rat) < 1 ∧ (1 : Rat) < 3601 ∧
    get_salesforce 3601 tokenOk cacheA = (Except.ok sessA, cacheA) := by
  refine ⟨by norm_num, by norm_num, ?_⟩
  exact (credential_cache_lifecycle sessA 1 3601 tokenOk (by norm_num)
    (by norm_num)).1 (by norm_num)

/-- C5 counterexample: with a stale cached session (acquired at
time 1, now 5000) and a 401 token response, `get_salesforce` discards
the stale session *before* attempting authentication, so after the
failure the cache's client slot is empty — the previously cached stale
session is not retained, contradicting the claim's "cache is left
untouched". -/
theorem stale_session_discarded_on_auth_failure :
    get_salesforce 5000 token401 cacheA =
      (Except.error ("Auth failed: " ++ toString (401 : Nat) ++ " - " ++ "invalid_grant"),
       { sf_client := none, auth_time := some 1 }) := by
  have hd : decide ((5000 : Rat) - 1 > 3600) = true := by norm_num
  simp [get_salesforce, get_salesforce_core, cacheA, ratTruthy, hd,
    authenticate, token401]

/-- C5 (amended): when authentication fails in a call that attempts
it (no cached session, or a cached session whose age exceeds 3600),
the error is surfaced to the caller, no partial or invalid session is
ever cached — the resulting client slot is empty (an expired session
having been discarded before the attempt) and the recorded acquisition
time is unchanged — and the next call attempts authentication again. -/
theorem auth_failure_not_cached (st : CacheState) (t : Rat) (o : AuthOutcome)
    (m : String)
    (hfail : authenticate o = Except.error m)
    (hattempt : st.sf_client = none ∨
      ∃ s T, st.sf_client = some s ∧ st.auth_time = some T ∧ ¬ T = 0 ∧
        3600 < t - T) :
    get_salesforce t o st =
      (Except.error m, { sf_client := none, auth_time := st.auth_time }) ∧
    (∀ t2 o2 s2, authenticate o2 = Except.ok s2 →
      get_salesforce t2 o2 { sf_client := none, auth_time := st.auth_time } =
        (Except.ok s2, { sf_client := some s2, auth_time := some t2 })) := by
  constructor
  · rcases hattempt with hnone | ⟨s, T, hc, ha, hT0, hgt⟩
    · obtain ⟨c, a⟩ := st
      dsimp only at hnone
      subst hnone
      simp [get_salesforce, get_salesforce_core, hfail]
    · obtain ⟨c, a⟩ := st
      dsimp only at hc ha
      subst hc
      subst ha
      have hd : decide (t - T > 3600) = true := decide_eq_true hgt
      simp [get_salesforce, get_salesforce_core, ratTruthy, hT0, hd, hfail]
  · intro t2 o2 s2 hs2
    simp [get_salesforce, get_salesforce_core, hs2]

/-- C5 witness: the stale-cache 401 scenario surfaces the error and
leaves the client slot empty so the next call retries. -/
theorem auth_failure_not_cached_witness :
    get_salesforce 5000 token401 cacheA =
      (Except.error ("Auth failed: " ++ toString (401 : Nat) ++ " - " ++ "invalid_grant"),
       { sf_client := none, auth_time := some 1 }) :=
  (auth_failure_not_cached cacheA 5000 token401 _ rfl
    (Or.inr ⟨sessA, 1, rfl, rfl, by norm_num, by norm_num⟩)).1

/-- C6 counterexample: the http variant's `get_accounts` performs no
limit validation: at `limit = 200` it issues
`SELECT Id, Name FROM Account LIMIT 200`, not the limit-5 query, so it
does not behave as if `limit = 5`. -/
theorem http_limit_not_clamped :
    (get_accounts_http accEnvOk cache0 200).2.2 =
      some "SELECT Id, Name FROM Account LIMIT 200" ∧
    (get_accounts_http accEnvOk cache0 5).2.2 =
      some "SELECT Id, Name FROM Account LIMIT 5" ∧
    ¬ get_accounts_http accEnvOk cache0 200 = get_accounts_http accEnvOk cache0 5 :=
  ⟨rfl, rfl, fun h => absurd (congrArg (fun x => x.2.2) h) (by decide)⟩

/-- C6 (amended): in the azure variant (and the identical clamp in
the fastapi dispatcher), any integer limit outside `[1, 100]` makes
`get_accounts` behave exactly as if `limit = 5`, and the SOQL it
issues, when one is issued at all, requests 5 rows; the http variant
performs no validation and interpolates the limit as given. -/
theorem accounts_limit_clamped (env : AccountsEnv) (st : CacheState) (limit : Int)
    (h : limit < 1 ∨ limit > 100) :
    get_accounts env st limit = get_accounts env st 5 ∧
    ((get_accounts env st limit).2.2 = none ∨
      (get_accounts env st limit).2.2 = some (accounts_soql 5)) := by
  have heq : get_accounts env st limit = get_accounts env st 5 := by
    unfold get_accounts
    rw [if_pos h, if_neg (by decide)]
  refine ⟨heq, ?_⟩
  rw [heq]
  unfold get_accounts
  rw [if_neg (by decide)]
  split
  · exact Or.inl rfl
  · split
    · exact Or.inr rfl
    · exact Or.inr rfl

/-- C6 witness: `limit = 0` is out of range and behaves as the
default 5. -/
theorem accounts_limit_clamped_witness :
    ((0 : Int) < 1 ∨ (0 : Int) > 100) ∧
    get_accounts accEnvOk cache0 0 = get_accounts accEnvOk cache0 5 :=
  ⟨Or.inl (by decide),
   (accounts_limit_clamped accEnvOk cache0 0 (Or.inl (by decide))).1⟩

/-- C7 counterexample: the http variant's `get_accounts` has no
`try/except`: when the token endpoint answers 401 the exception
propagates to the caller (`Except.error`), instead of a one-element
`[{"error": ...}]` list — the claim fails for this variant. -/
theorem http_accounts_raises_on_auth_failure :
    get_accounts_http accEnv401 cache0 5 =
      (Except.error ("Auth failed: " ++ "invalid_grant"), cache0, none) :=
  rfl

/-- C7 (amended): in the azure variant, `get_accounts` never
raises: an authentication failure or a query failure is returned as
the one-element list `[{"error": "Error fetching accounts: ..."}]`;
when the token endpoint answers 401 the message carries the status
code 401, and with no previously cached session the cache still holds
no session afterwards (the returned state is the input state). -/
theorem accounts_error_folded (env : AccountsEnv) (st : CacheState) (limit : Int)
    (hnc : st.sf_client = none) :
    (∀ m, authenticate env.tokenOutcome = Except.error m →
      get_accounts env st limit =
        ([AccountsItem.failure ("Error fetching accounts: " ++ m)], st, none)) ∧
    (∀ s m, authenticate env.tokenOutcome = Except.ok s →
      env.queryRecords = Except.error m →
      (get_accounts env st limit).1 =
        [AccountsItem.failure ("Error fetching accounts: " ++ m)]) ∧
    (∀ body iu tok, env.tokenOutcome = AuthOutcome.response 401 body iu tok →
      ∃ msg pre post,
        get_accounts env st limit = ([AccountsItem.failure msg], st, none) ∧
        msg.data = pre ++ "401".data ++ post) := by
  obtain ⟨c, a⟩ := st
  dsimp only at hnc
  subst hnc
  refine ⟨?_, ?_, ?_⟩
  · intro m hm
    simp [get_accounts, get_salesforce, get_salesforce_core, hm]
  · intro s m hs hm
    simp [get_accounts, get_salesforce, get_salesforce_core, hs, hm]
  · intro body iu tok htok
    have hm : authenticate env.tokenOutcome =
        Except.error ("Auth failed: " ++ toString (401 : Nat) ++ " - " ++ body) := by
      rw [htok]
      rfl
    refine ⟨"Error fetching accounts: " ++
        ("Auth failed: " ++ toString (401 : Nat) ++ " - " ++ body),
      "Error fetching accounts: ".data ++ "Auth failed: ".data,
      " - ".data ++ body.data, ?_, ?_⟩
    · simp [get_accounts, get_salesforce, get_salesforce_core, hm]
    · have h401 : toString (401 : Nat) = "401" := rfl
      rw [h401]
      simp [String.data_append, List.append_assoc]

/-- C7 witness: the 401 scenario on the azure variant with an empty
cache returns the folded one-element error list and caches nothing. -/
theorem accounts_error_folded_witness :
    get_accounts accEnv401 cache0 5 =
      ([AccountsItem.failure ("Error fetching accounts: " ++
          ("Auth failed: " ++ toString (401 : Nat) ++ " - " ++ "invalid_grant"))],
       cache0, none) :=
  (accounts_error_folded accEnv401 cache0 5 rfl).1 _ rfl

/-- C8: in each assembled quote-line response entry, a numeric
source field (sales price `UnitPrice`, `Quantity`, and the pricebook
entry's list price) is carried through (the `float` conversion is the
identity on the rational model) exactly when it is truthy, and any
falsy source value — absent, `None`-like, or zero — is emitted as
absent (`none`), conflating zero with missing. -/
theorem line_response_falsy_absent (oli : OLI) :
    (∀ x : Rat, oli.UnitPrice = some x → ¬ x = 0 →
      (mkLineResponse oli).salesPrice = some x) ∧
    (oli.UnitPrice = none ∨ oli.UnitPrice = some 0 →
      (mkLineResponse oli).salesPrice = none) ∧
    (∀ x : Rat, oli.Quantity = some x → ¬ x = 0 →
      (mkLineResponse oli).quantity = some x) ∧
    (oli.Quantity = none ∨ oli.Quantity = some 0 →
      (mkLineResponse oli).quantity = none) ∧
    (∀ x : Rat, oliListPrice oli = some x → ¬ x = 0 →
      (mkLineResponse oli).listPrice = some x) ∧
    (oliListPrice oli = none ∨ oliListPrice oli = some 0 →
      (mkLineResponse oli).listPrice = none) := by
  refine ⟨?_, ?_, ?_, ?_, ?_, ?_⟩
  · intro x hx hx0
    simp [mkLineResponse, oliSalesPrice, hx, hx0]
  · rintro (hx | hx) <;> simp [mkLineResponse, oliSalesPrice, hx]
  · intro x hx hx0
    simp [mkLineResponse, oliQuantity, hx, hx0]
  · rintro (hx | hx) <;> simp [mkLineResponse, oliQuantity, hx]
  · intro x hx hx0
    simp [mkLineResponse, hx, hx0]
  · rintro (hx | hx) <;> simp [mkLineResponse, hx]

/-- C8 witness: truthy values (10, 3, 12) pass through; a zero
quantity, an absent unit price and a zero list price all come out
absent. -/
theorem line_response_falsy_absent_witness :
    (mkLineResponse oliWith).salesPrice = some 10 ∧
    (mkLineResponse oliWith).quantity = some 3 ∧
    (mkLineResponse oliWith).listPrice = some 12 ∧
    (mkLineResponse oliZero).salesPrice = none ∧
    (mkLineResponse oliZero).quantity = none ∧
    (mkLineResponse oliZero).listPrice = none :=
  ⟨(line_response_falsy_absent oliWith).1 10 rfl (by norm_num),
   (line_response_falsy_absent oliWith).2.2.1 3 rfl (by norm_num),
   (line_response_falsy_absent oliWith).2.2.2.2.1 12 rfl (by norm_num),
   (line_response_falsy_absent oliZero).2.1 (Or.inl rfl),
   (line_response_falsy_absent oliZero).2.2.2.1 (Or.inr rfl),
   (line_response_falsy_absent oliZero).2.2.2.2.2 (Or.inr rfl)⟩

/-- C9 counterexample: the fastapi variant performs no secondary
account lookup at all.  With no embedded account, a bare account id,
and an environment in which the account-details query would succeed
and return the Acme record, `create_quote_logic` still leaves
`accountName` (and phone/industry) absent while completing without
error — the lookup the claim asserts is simply never made in this
variant. -/
theorem fastapi_no_secondary_lookup :
    (create_quote_logic envBareOk "006000000000001").1.accountId =
      some "001000000000001" ∧
    (create_quote_logic envBareOk "006000000000001").1.accountName = none ∧
    (create_quote_logic envBareOk "006000000000001").1.accountPhone = none ∧
    (create_quote_logic envBareOk "006000000000001").1.accountIndustry = none ∧
    (create_quote_logic envBareOk "006000000000001").1.errorMessage = none ∧
    envBareOk.accountRecords = Except.ok [acctAcme] ∧
    acctAcme.Name = some "Acme" :=
  ⟨rfl, rfl, rfl, rfl, rfl, rfl, rfl⟩

/-- C9 (amended): in the azure and http variants of
`create_quote_from_opportunity`, when the opportunity query returned
no embedded account but a truthy bare account id, the secondary
account lookup is performed and its failure is swallowed: the workflow
continues to stage 5 and finishes with `errorMessage` absent, the
account name/phone/industry stay absent, `accountId` keeps the bare
id, and the quote and its lines are still created.  The fastapi
variant's `create_quote_logic` performs no secondary lookup at all
(see the counterexample): it records only the bare `accountId`. -/
theorem account_lookup_failure_nonfatal (b : Bool) (env : CrmEnv) (oid : String)
    (s : Session) (opp : Opp) (rest : List Opp) (q : String) (olis : List OLI)
    (aid : String) (m : String)
    (h1 : ¬ oid = "") (h2 : b = true → startsWith006 oid = true)
    (hs : env.auth = Except.ok s)
    (h4 : env.oppRecords = Except.ok (opp :: rest))
    (h5 : strTruthy opp.Pricebook2Id = true)
    (hacc : opp.Account = none)
    (haid : opp.AccountId = some aid)
    (haid2 : ¬ aid = "")
    (herr : env.accountRecords = Except.error m)
    (h6 : env.quoteCreate = Except.ok q)
    (holis : env.oliRecords = Except.ok olis)
    (hok : ∀ i, i < eligCount olis → ∃ v, env.qliCreate i = Except.ok v) :
    (create_quote_core b env oid).1.errorMessage = none ∧
    (create_quote_core b env oid).1.accountId = some aid ∧
    (create_quote_core b env oid).1.accountName = none ∧
    (create_quote_core b env oid).1.accountPhone = none ∧
    (create_quote_core b env oid).1.accountIndustry = none ∧
    (create_quote_core b env oid).1.quoteId = some q ∧
    (create_quote_core b env oid).1.quoteLineCount = eligCount olis := by
  have hb2 : (b && !(startsWith006 oid)) = false := by
    cases b with
    | false => rfl
    | true => rw [h2 rfl]; rfl
  have htr : strTruthy opp.AccountId = true := by
    rw [haid]
    simp [strTruthy, haid2]
  have hres := resolveAccount_lookup_error env opp
    { quoteId := some q, opportunityId := some opp.Id,
      opportunityName := some opp.Name } m hacc htr herr
  rw [core_success_head b env oid s opp rest q h1 hb2 hs h4 h5 h6, hres]
  rw [runStage5_all_ok env _ _ olis holis hok rfl rfl]
  refine ⟨rfl, ?_, rfl, rfl, rfl, rfl, rfl⟩
  exact haid

/-- C9 witness: the account-lookup-failure fixture finishes with no
`errorMessage` and absent account name. -/
theorem account_lookup_failure_nonfatal_witness :
    (create_quote_core true envAcctFail "006000000000001").1.errorMessage = none ∧
    (create_quote_core true envAcctFail "006000000000001").1.accountName = none := by
  have h := account_lookup_failure_nonfatal true envAcctFail "006000000000001"
    sessB oppBare [] "0Q0000000000001" [oliWith, oliWithout]
    "001000000000001" "account lookup failed"
    (by decide) (fun _ => by decide) rfl rfl (by decide) rfl rfl (by decide)
    rfl rfl rfl (fun _ _ => ⟨"0QL000000000001", rfl⟩)
  exact ⟨h.1, h.2.2.1⟩

/-- C10: in the azure/http variants, when the `(j+1)`-st eligible
quote-line creation fails after `j ≥ 1` lines were already created in
the CRM, the returned result still reports `quoteLineCount = 0` and
`quoteLines = []` (both are assigned only after the whole loop),
while `errorMessage` is set and `quoteId` stays populated; the
mutation trace shows the Quote plus the `j` line items actually
created, none of which the response reflects. -/
theorem mid_loop_failure_not_reflected (b : Bool) (env : CrmEnv) (oid : String)
    (s : Session) (opp : Opp) (rest : List Opp) (q : String) (olis : List OLI)
    (j : Nat) (m : String)
    (h1 : ¬ oid = "") (h2 : b = true → startsWith006 oid = true)
    (hs : env.auth = Except.ok s)
    (h4 : env.oppRecords = Except.ok (opp :: rest))
    (h5 : strTruthy opp.Pricebook2Id = true)
    (h6 : env.quoteCreate = Except.ok q)
    (holis : env.oliRecords = Except.ok olis)
    (hj1 : 1 ≤ j)
    (hok : ∀ i, i < j → ∃ v, env.qliCreate i = Except.ok v)
    (herr : env.qliCreate j = Except.error m)
    (hj : j < eligCount olis) :
    (create_quote_core b env oid).1.quoteLineCount = 0 ∧
    (create_quote_core b env oid).1.quoteLines = [] ∧
    (create_quote_core b env oid).1.errorMessage = some m ∧
    (create_quote_core b env oid).1.quoteId = some q ∧
    (create_quote_core b env oid).2 =
      Effect.create "Quote" :: List.replicate j (Effect.create "QuoteLineItem") := by
  have hb2 : (b && !(startsWith006 oid)) = false := by
    cases b with
    | false => rfl
    | true => rw [h2 rfl]; rfl
  rw [core_success_head b env oid s opp rest q h1 hb2 hs h4 h5 h6]
  rw [runStage5_fails_at env _ _ olis j m holis hok herr hj]
  exact ⟨(resolveAccount_preserves env opp _).2.2.2.1.trans rfl,
    (resolveAccount_preserves env opp _).2.2.2.2.1.trans rfl,
    rfl,
    (resolveAccount_preserves env opp _).1.trans rfl,
    rfl⟩

/-- C10 witness: the mid-loop-failure fixture (second of two
eligible lines fails) reports a zero count while the trace shows one
line item was created. -/
theorem mid_loop_failure_not_reflected_witness :
    (create_quote_core true envQliFail "006000000000001").1.quoteLineCount = 0 ∧
    (create_quote_core true envQliFail "006000000000001").2 =
      Effect.create "Quote" :: List.replicate 1 (Effect.create "QuoteLineItem") := by
  have h := mid_loop_failure_not_reflected true envQliFail "006000000000001"
    sessB oppA [] "0Q0000000000001" [oliWith, oliWithout, oliWith] 1
    "QuoteLineItem create failed"
    (by decide) (fun _ => by decide) rfl rfl (by decide) rfl rfl (by norm_num)
    (by
      intro i hi
      have h0 : i = 0 := by omega
      subst h0
      exact ⟨"0QL000000000001", rfl⟩)
    rfl (by decide)
  exact ⟨h.1, h.2.2.2.2⟩
